import Mathlib

/-!
Shallow embedding of the j5 hardware-abstraction layer core:
the GPIO pin mode state machine (`j5/components/gpio_pin.py`),
power outputs and their groups (`j5/components/power_output.py`),
the SR v4 power board (`j5/boards/sr/v4/power_board.py`) and the
motor output component (`j5/components/motor_output.py`).

Backends are abstract interfaces in the source; a canonical backend
state is modelled from the interface docstrings and the spec, with a
call trace recording every backend method invocation so that claims
about "no backend call is made" can be stated.
-/

namespace J5

/-- Source `GPIOPinMode` from `gpio_pin.py`: hardware modes a GPIO pin can be set to. -/
inductive GPIOPinMode where
  | DIGITAL_INPUT
  | DIGITAL_INPUT_PULLUP
  | DIGITAL_INPUT_PULLDOWN
  | DIGITAL_OUTPUT
  | ANALOGUE_INPUT
  | ANALOGUE_OUTPUT
  | PWM_OUTPUT
  deriving DecidableEq, Repr, Inhabited

/-- The `IntEnum` values of `GPIOPinMode` in the source. -/
def GPIOPinMode.toNat : GPIOPinMode → Nat
  | .DIGITAL_INPUT => 0
  | .DIGITAL_INPUT_PULLUP => 1
  | .DIGITAL_INPUT_PULLDOWN => 2
  | .DIGITAL_OUTPUT => 3
  | .ANALOGUE_INPUT => 4
  | .ANALOGUE_OUTPUT => 5
  | .PWM_OUTPUT => 6

/-- The error kinds raised by the core components:
`NotSupportedByHardwareError`, `BadGPIOPinModeError`, Python's built-in
`ValueError` (domain out of range / construction invariant) and
`TypeError` (bad construction call). -/
inductive J5Error where
  | notSupportedByHardware
  | badGPIOPinMode
  | valueError
  | typeError
  deriving DecidableEq, Repr

/-- One invocation of a `GPIOPinInterface` backend method, recorded in
operation traces.  `getPinMode` is `get_gpio_pin_mode`, `getDigitalState`
is `get_gpio_pin_digital_state` (last written value), `readDigitalState`
is `read_gpio_pin_digital_state` (live sensed value). -/
inductive BackendCall where
  | getPinMode (identifier : Nat)
  | setPinMode (identifier : Nat) (m : GPIOPinMode)
  | getDigitalState (identifier : Nat)
  | readDigitalState (identifier : Nat)
  | writeDigitalState (identifier : Nat) (v : Bool)
  | readAnalogueValue (identifier : Nat)
  | writeDacValue (identifier : Nat) (v : ℚ)
  | writePwmValue (identifier : Nat) (v : ℚ)
  deriving DecidableEq, Repr

/-- A backend call that reads or writes pin state (as opposed to merely
querying the stored mode). -/
def BackendCall.isPinStateAccess : BackendCall → Bool
  | .getDigitalState _ => true
  | .readDigitalState _ => true
  | .writeDigitalState _ _ => true
  | .readAnalogueValue _ => true
  | .writeDacValue _ _ => true
  | .writePwmValue _ _ => true
  | _ => false

/-- A backend call that mutates backend state (a write instruction). -/
def BackendCall.isWrite : BackendCall → Bool
  | .setPinMode _ _ => true
  | .writeDigitalState _ _ => true
  | .writeDacValue _ _ => true
  | .writePwmValue _ _ => true
  | _ => false

/-- Modelled from the spec and the `GPIOPinInterface` docstrings
(the concrete backend is an external collaborator, not in the sources):
the backend stores, per identifier, the pin's hardware mode, the last
*written* digital value, the live *sensed* digital value and analogue
values.  Analogue floats are modelled as rationals. -/
structure GPIOBackend where
  pinMode : Nat → GPIOPinMode
  written : Nat → Bool
  sensed : Nat → Bool
  analogue : Nat → ℚ
  dacValue : Nat → ℚ
  pwmValue : Nat → ℚ

/-- Source `set_gpio_pin_mode`: store the hardware mode of the pin. -/
def GPIOBackend.setGpioPinMode (bk : GPIOBackend) (identifier : Nat)
    (m : GPIOPinMode) : GPIOBackend :=
  { bk with pinMode := fun i => if i = identifier then m else bk.pinMode i }

/-- Source `write_gpio_pin_digital_state`: store the last written digital value. -/
def GPIOBackend.writeGpioPinDigitalState (bk : GPIOBackend) (identifier : Nat)
    (v : Bool) : GPIOBackend :=
  { bk with written := fun i => if i = identifier then v else bk.written i }

/-- Source `write_gpio_pin_dac_value`: store the DAC value. -/
def GPIOBackend.writeGpioPinDacValue (bk : GPIOBackend) (identifier : Nat)
    (v : ℚ) : GPIOBackend :=
  { bk with dacValue := fun i => if i = identifier then v else bk.dacValue i }

/-- Source `write_gpio_pin_pwm_value`: store the PWM duty cycle. -/
def GPIOBackend.writeGpioPinPwmValue (bk : GPIOBackend) (identifier : Nat)
    (v : ℚ) : GPIOBackend :=
  { bk with pwmValue := fun i => if i = identifier then v else bk.pwmValue i }

/-- The outcome of one `GPIOPin` operation: the Python return value or
raised error, the backend state afterwards (unchanged when an error was
raised before any mutating call), and the trace of backend calls made. -/
structure OpResult (α : Type) where
  result : Except J5Error α
  backend : GPIOBackend
  calls : List BackendCall

/-- Source `GPIOPin` from `gpio_pin.py`: holds its identifier and the
supported-modes list fixed at construction.  The owning board reference
only feeds backend calls and error messages and is omitted; the current
mode is never cached locally (the pin is a thin proxy). -/
structure GPIOPin where
  identifier : Nat
  supported_modes : List GPIOPinMode
  deriving DecidableEq, Repr

/-- The `mode` property getter: `get_gpio_pin_mode` on the backend. -/
def GPIOPin.getMode (p : GPIOPin) (bk : GPIOBackend) : OpResult GPIOPinMode :=
  ⟨.ok (bk.pinMode p.identifier), bk, [.getPinMode p.identifier]⟩

/-- The `mode` property setter: raise `NotSupportedByHardwareError` when
the new mode is not in `supported_modes` (before any backend call),
otherwise instruct the backend to adopt it. -/
def GPIOPin.setMode (p : GPIOPin) (m : GPIOPinMode) (bk : GPIOBackend) :
    OpResult Unit :=
  if m ∈ p.supported_modes then
    ⟨.ok (), bk.setGpioPinMode p.identifier m, [.setPinMode p.identifier m]⟩
  else
    ⟨.error .notSupportedByHardware, bk, []⟩

/-- The generator `any(self.mode == mode for mode in pin_modes)` inside
`_require_pin_modes`: queries the backend mode once per candidate until
one matches, returning whether any matched and the calls made. -/
def anyModeCheck (p : GPIOPin) (bk : GPIOBackend) :
    List GPIOPinMode → Bool × List BackendCall
  | [] => (false, [])
  | m :: rest =>
    if bk.pinMode p.identifier = m then (true, [.getPinMode p.identifier])
    else
      let r := anyModeCheck p bk rest
      (r.1, .getPinMode p.identifier :: r.2)

/-- Source `_require_pin_modes`: raise `BadGPIOPinModeError` unless the current
mode is one of `pin_modes` (or the list is empty). -/
def requirePinModes (p : GPIOPin) (pin_modes : List GPIOPinMode)
    (bk : GPIOBackend) : Except J5Error Unit × List BackendCall :=
  let r := anyModeCheck p bk pin_modes
  if !r.1 && pin_modes.length ≠ 0 then (.error .badGPIOPinMode, r.2)
  else (.ok (), r.2)

/-- The mode set gating `digital_state` access in the getter. -/
def digitalGetModes : List GPIOPinMode :=
  [.DIGITAL_OUTPUT, .DIGITAL_INPUT, .DIGITAL_INPUT_PULLUP,
   .DIGITAL_INPUT_PULLDOWN]

/-- The `digital_state` property getter: gate on the digital modes, then
dispatch to the last-written value in `DIGITAL_OUTPUT` and to the live
sensed value in the input modes. -/
def GPIOPin.getDigitalState (p : GPIOPin) (bk : GPIOBackend) : OpResult Bool :=
  match requirePinModes p digitalGetModes bk with
  | (.error e, t) => ⟨.error e, bk, t⟩
  | (.ok _, t) =>
    if bk.pinMode p.identifier = .DIGITAL_OUTPUT then
      ⟨.ok (bk.written p.identifier), bk,
        t ++ [.getPinMode p.identifier, .getDigitalState p.identifier]⟩
    else
      ⟨.ok (bk.sensed p.identifier), bk,
        t ++ [.getPinMode p.identifier, .readDigitalState p.identifier]⟩

/-- The `digital_state` property setter: legal only in `DIGITAL_OUTPUT`,
then forward the write to the backend. -/
def GPIOPin.setDigitalState (p : GPIOPin) (v : Bool) (bk : GPIOBackend) :
    OpResult Unit :=
  match requirePinModes p [.DIGITAL_OUTPUT] bk with
  | (.error e, t) => ⟨.error e, bk, t⟩
  | (.ok _, t) =>
    ⟨.ok (), bk.writeGpioPinDigitalState p.identifier v,
      t ++ [.writeDigitalState p.identifier v]⟩

/-- The `analogue_value` property getter: legal only in `ANALOGUE_INPUT`. -/
def GPIOPin.getAnalogueValue (p : GPIOPin) (bk : GPIOBackend) : OpResult ℚ :=
  match requirePinModes p [.ANALOGUE_INPUT] bk with
  | (.error e, t) => ⟨.error e, bk, t⟩
  | (.ok _, t) =>
    ⟨.ok (bk.analogue p.identifier), bk,
      t ++ [.readAnalogueValue p.identifier]⟩

/-- The `analogue_value` property setter: gate on the two analogue output
modes, then range-check the value, then dispatch to the DAC write in
`ANALOGUE_OUTPUT` and the PWM write otherwise. -/
def GPIOPin.setAnalogueValue (p : GPIOPin) (v : ℚ) (bk : GPIOBackend) :
    OpResult Unit :=
  match requirePinModes p [.ANALOGUE_OUTPUT, .PWM_OUTPUT] bk with
  | (.error e, t) => ⟨.error e, bk, t⟩
  | (.ok _, t) =>
    if v < 0 ∨ v > 1 then ⟨.error .valueError, bk, t⟩
    else if bk.pinMode p.identifier = .ANALOGUE_OUTPUT then
      ⟨.ok (), bk.writeGpioPinDacValue p.identifier v,
        t ++ [.getPinMode p.identifier, .writeDacValue p.identifier v]⟩
    else
      ⟨.ok (), bk.writeGpioPinPwmValue p.identifier v,
        t ++ [.getPinMode p.identifier, .writePwmValue p.identifier v]⟩

/-- Source `GPIOPin.__init__`: store the fields, raise `ValueError` on an empty
supported-modes list, default the initial mode to `supported_modes[0]`,
then go through the `mode` setter (which rejects an unsupported explicit
initial mode and otherwise instructs the backend). -/
def GPIOPin.construct (identifier : Nat)
    (supported_modes : List GPIOPinMode)
    (initial_mode : Option GPIOPinMode) (bk : GPIOBackend) :
    OpResult GPIOPin :=
  if supported_modes.length < 1 then ⟨.error .valueError, bk, []⟩
  else
    let p : GPIOPin := ⟨identifier, supported_modes⟩
    let im := match initial_mode with
      | none => supported_modes.headI
      | some m => m
    match p.setMode im bk with
    | ⟨.ok _, bk', t⟩ => ⟨.ok p, bk', t⟩
    | ⟨.error e, bk', t⟩ => ⟨.error e, bk', t⟩

/-- Source `GPIOPin(identifier, board, backend)` with the source's default
arguments: `supported_modes=[GPIOPinMode.DIGITAL_OUTPUT]`,
`initial_mode=None`. -/
def GPIOPin.constructDefault (identifier : Nat) (bk : GPIOBackend) :
    OpResult GPIOPin :=
  GPIOPin.construct identifier [.DIGITAL_OUTPUT] none bk

/-- One user-level operation on a `GPIOPin`, used to state the
reachable-state invariant. -/
inductive PinOp where
  | setMode (m : GPIOPinMode)
  | getMode
  | getDigital
  | setDigital (v : Bool)
  | getAnalogue
  | setAnalogue (v : ℚ)
  deriving DecidableEq, Repr

/-- Apply one operation to the backend state; a raised error leaves the
backend as the operation left it (errors are raised before mutating
calls, so that is the original state). -/
def PinOp.apply (p : GPIOPin) (bk : GPIOBackend) : PinOp → GPIOBackend
  | .setMode m => (p.setMode m bk).backend
  | .getMode => (p.getMode bk).backend
  | .getDigital => (p.getDigitalState bk).backend
  | .setDigital v => (p.setDigitalState v bk).backend
  | .getAnalogue => (p.getAnalogueValue bk).backend
  | .setAnalogue v => (p.setAnalogueValue v bk).backend

/-- Run a sequence of pin operations from a backend state. -/
def runOps (p : GPIOPin) (bk : GPIOBackend) (ops : List PinOp) : GPIOBackend :=
  ops.foldl (fun b op => PinOp.apply p b op) bk

/-- Modelled from the spec and the `PowerOutputInterface` docstrings:
the backend stores, per identifier, whether the output is enabled and
the current drawn. -/
structure PowerBackend where
  enabled : Nat → Bool
  current : Nat → ℚ

/-- Source `set_power_output_enabled`. -/
def PowerBackend.setPowerOutputEnabled (bk : PowerBackend) (identifier : Nat)
    (v : Bool) : PowerBackend :=
  { bk with enabled := fun i => if i = identifier then v else bk.enabled i }

/-- Source `PowerOutput` from `power_output.py`: a thin proxy holding its
identifier (board and backend references omitted as for `GPIOPin`). -/
structure PowerOutput where
  identifier : Nat
  deriving DecidableEq, Repr

/-- The `is_enabled` property getter: `get_power_output_enabled`. -/
def PowerOutput.isEnabled (o : PowerOutput) (bk : PowerBackend) : Bool :=
  bk.enabled o.identifier

/-- The `is_enabled` property setter: `set_power_output_enabled`. -/
def PowerOutput.setEnabled (o : PowerOutput) (v : Bool) (bk : PowerBackend) :
    PowerBackend :=
  bk.setPowerOutputEnabled o.identifier v

/-- Source `PowerOutputGroup`: a fixed mapping of outputs; `_outputs.values()`
iterates in insertion order, modelled as the list order. -/
structure PowerOutputGroup where
  outputs : List PowerOutput
  deriving DecidableEq, Repr

/-- Source `power_on`: enable every output in the group in iteration order. -/
def PowerOutputGroup.powerOn (g : PowerOutputGroup) (bk : PowerBackend) :
    PowerBackend :=
  g.outputs.foldl (fun b o => o.setEnabled true b) bk

/-- Source `power_off`: disable every output in the group in iteration order. -/
def PowerOutputGroup.powerOff (g : PowerOutputGroup) (bk : PowerBackend) :
    PowerBackend :=
  g.outputs.foldl (fun b o => o.setEnabled false b) bk

/-- Source `PowerOutputPosition` from `power_board.py`: the six outputs of the
SR v4 power board with their wire numbers. -/
inductive PowerOutputPosition where
  | H0
  | H1
  | L0
  | L1
  | L2
  | L3
  deriving DecidableEq, Repr

/-- The enum values used as output identifiers. -/
def PowerOutputPosition.value : PowerOutputPosition → Nat
  | .H0 => 0
  | .H1 => 1
  | .L0 => 2
  | .L1 => 3
  | .L2 => 4
  | .L3 => 5

/-- The positions in declaration order (Python `Enum` iteration order). -/
def PowerOutputPosition.all : List PowerOutputPosition :=
  [.H0, .H1, .L0, .L1, .L2, .L3]

/-- Source `PowerBoard.__init__` builds one `PowerOutput` per position, in enum
order, and groups them; this is the board's `_output_group`. -/
def PowerBoard.outputGroup : PowerOutputGroup :=
  ⟨PowerOutputPosition.all.map (fun pos => ⟨pos.value⟩)⟩

/-- Source `PowerBoard.make_safe`: `self._output_group.power_off()`. -/
def PowerBoard.makeSafe (bk : PowerBackend) : PowerBackend :=
  PowerBoard.outputGroup.powerOff bk

/-- The method names defined by the `MotorOutput` class body in
`motor_output.py` (the property `motor_power` has both accessors). -/
def MotorOutput.classMethodNames : List String :=
  ["__int__", "interface_class", "motor_power"]

/-- The method names defined by the `PowerOutput` class body in
`power_output.py`, for contrast with `MotorOutput`. -/
def PowerOutput.classMethodNames : List String :=
  ["__init__", "interface_class", "is_enabled", "current"]

/-- Modelled from the spec: the `Component` base class (in
`j5/components/component.py`, a file absent from the sources) is an
abstract marker that declares no initializer of its own — per the spec,
each concrete component binds `(identifier, board, backend)` in its own
initializer, as `PowerOutput` and `GPIOPin` do.  Python construction
runs the `__init__` found on the class; a class whose body defines no
`__init__` falls back to the default initializer, which rejects the
three extra arguments and binds no fields.  So construction binds the
references exactly when the class body defines a method named
`__init__`. -/
def pythonConstructionBinds (classMethods : List String) : Bool :=
  classMethods.contains "__init__"

/-- A concrete backend used in witnesses: every pin in `DIGITAL_OUTPUT`,
all stored values zeroed. -/
def bkOut : GPIOBackend :=
  ⟨fun _ => .DIGITAL_OUTPUT, fun _ => false, fun _ => false,
   fun _ => 0, fun _ => 0, fun _ => 0⟩

/-- A concrete backend used in witnesses: every pin in `DIGITAL_INPUT`,
the sensed value `true` everywhere. -/
def bkIn : GPIOBackend :=
  ⟨fun _ => .DIGITAL_INPUT, fun _ => false, fun _ => true,
   fun _ => 0, fun _ => 0, fun _ => 0⟩

/-- A concrete backend used in witnesses: every pin in `ANALOGUE_INPUT`. -/
def bkAna : GPIOBackend :=
  ⟨fun _ => .ANALOGUE_INPUT, fun _ => false, fun _ => true,
   fun _ => 1/2, fun _ => 0, fun _ => 0⟩

/-- A concrete backend used in witnesses: every pin in `PWM_OUTPUT`. -/
def bkPwm : GPIOBackend :=
  ⟨fun _ => .PWM_OUTPUT, fun _ => false, fun _ => false,
   fun _ => 0, fun _ => 0, fun _ => 0⟩

section Theorems

/-- C1: the `mode` setter rejects any mode outside `supported_modes` with
`NotSupportedByHardwareError`, making no backend call and leaving the
reported mode unchanged; a supported mode is forwarded to the backend and
subsequent `mode` reads return the backend-reported mode, now equal to it. -/
theorem gpio_mode_setter_gating (p : GPIOPin) (bk : GPIOBackend)
    (x : GPIOPinMode) :
    (x ∉ p.supported_modes →
      (p.setMode x bk).result = .error .notSupportedByHardware ∧
      (p.setMode x bk).calls = [] ∧
      (p.setMode x bk).backend = bk ∧
      ((p.getMode (p.setMode x bk).backend).result =
        .ok (bk.pinMode p.identifier))) ∧
    (x ∈ p.supported_modes →
      (p.setMode x bk).result = .ok () ∧
      (p.setMode x bk).calls = [.setPinMode p.identifier x] ∧
      ((p.getMode (p.setMode x bk).backend).result =
        .ok ((p.setMode x bk).backend.pinMode p.identifier)) ∧
      ((p.setMode x bk).backend.pinMode p.identifier = x)) := by
  constructor
  · intro h
    simp [GPIOPin.setMode, GPIOPin.getMode, h]
  · intro h
    simp [GPIOPin.setMode, GPIOPin.getMode, GPIOBackend.setGpioPinMode, h]

/-- Witness for C1 at pin 0 with supported modes `[DIGITAL_OUTPUT]`,
rejected mode `ANALOGUE_INPUT` and accepted mode `DIGITAL_OUTPUT`. -/
theorem gpio_mode_setter_gating_witness :
    ((GPIOPin.mk 0 [.DIGITAL_OUTPUT]).setMode .ANALOGUE_INPUT bkOut).result
        = .error .notSupportedByHardware ∧
    ((GPIOPin.mk 0 [.DIGITAL_OUTPUT]).setMode
        .DIGITAL_OUTPUT bkOut).backend.pinMode 0 = .DIGITAL_OUTPUT := by
  have h1 := gpio_mode_setter_gating (GPIOPin.mk 0 [.DIGITAL_OUTPUT]) bkOut
    .ANALOGUE_INPUT
  have h2 := gpio_mode_setter_gating (GPIOPin.mk 0 [.DIGITAL_OUTPUT]) bkOut
    .DIGITAL_OUTPUT
  exact ⟨(h1.1 (by decide)).1, (h2.2 (by decide)).2.2.2⟩

/-- C4: construction with an empty supported-modes list raises the
construction-invariant `ValueError` with no backend call; with non-empty
`S` the pin's mode after construction is the explicitly supplied initial
mode when given (construction failing when it is not in `S`), and `S[0]`
when none is given. -/
theorem gpio_construction_initial_mode (identifier : Nat)
    (S : List GPIOPinMode) (im : Option GPIOPinMode) (x : GPIOPinMode)
    (bk : GPIOBackend) :
    (S = [] →
      (GPIOPin.construct identifier S im bk).result = .error .valueError ∧
      (GPIOPin.construct identifier S im bk).calls = [] ∧
      (GPIOPin.construct identifier S im bk).backend = bk) ∧
    (S ≠ [] → x ∈ S →
      (GPIOPin.construct identifier S (some x) bk).result =
        .ok ⟨identifier, S⟩ ∧
      ((GPIOPin.mk identifier S).getMode
        (GPIOPin.construct identifier S (some x) bk).backend).result =
        .ok x) ∧
    (S ≠ [] → x ∉ S →
      (GPIOPin.construct identifier S (some x) bk).result =
        .error .notSupportedByHardware) ∧
    (S ≠ [] →
      (GPIOPin.construct identifier S none bk).result =
        .ok ⟨identifier, S⟩ ∧
      ((GPIOPin.mk identifier S).getMode
        (GPIOPin.construct identifier S none bk).backend).result =
        .ok S.headI) := by
  refine ⟨?_, ?_, ?_, ?_⟩
  · intro h
    subst h
    simp [GPIOPin.construct]
  · intro h hx
    have hl : ¬ S.length < 1 := by
      simpa [Nat.lt_one_iff, List.length_eq_zero] using h
    simp [GPIOPin.construct, hl, GPIOPin.setMode, hx, GPIOPin.getMode,
      GPIOBackend.setGpioPinMode]
  · intro h hx
    have hl : ¬ S.length < 1 := by
      simpa [Nat.lt_one_iff, List.length_eq_zero] using h
    simp [GPIOPin.construct, hl, GPIOPin.setMode, hx]
  · intro h
    have hl : ¬ S.length < 1 := by
      simpa [Nat.lt_one_iff, List.length_eq_zero] using h
    have hmem : S.headI ∈ S := by
      cases S with
      | nil => exact absurd rfl h
      | cons a t => simp [List.headI]
    simp [GPIOPin.construct, hl, GPIOPin.setMode, hmem, GPIOPin.getMode,
      GPIOBackend.setGpioPinMode]

/-- Witness for C4: empty list rejected; explicit initial mode adopted;
unsupported initial mode rejected; default initial mode is the first
supported mode. -/
theorem gpio_construction_initial_mode_witness :
    (GPIOPin.construct 0 [] none bkOut).result = .error .valueError ∧
    ((GPIOPin.mk 0 [.DIGITAL_INPUT, .DIGITAL_OUTPUT]).getMode
      (GPIOPin.construct 0 [.DIGITAL_INPUT, .DIGITAL_OUTPUT]
        (some .DIGITAL_OUTPUT) bkOut).backend).result = .ok .DIGITAL_OUTPUT ∧
    (GPIOPin.construct 0 [.DIGITAL_INPUT, .DIGITAL_OUTPUT]
      (some .PWM_OUTPUT) bkOut).result = .error .notSupportedByHardware ∧
    ((GPIOPin.mk 0 [.DIGITAL_INPUT, .DIGITAL_OUTPUT]).getMode
      (GPIOPin.construct 0 [.DIGITAL_INPUT, .DIGITAL_OUTPUT]
        none bkOut).backend).result = .ok .DIGITAL_INPUT := by
  have h1 := gpio_construction_initial_mode 0 [] none .DIGITAL_OUTPUT bkOut
  have h2 := gpio_construction_initial_mode 0
    [.DIGITAL_INPUT, .DIGITAL_OUTPUT] none .DIGITAL_OUTPUT bkOut
  have h3 := gpio_construction_initial_mode 0
    [.DIGITAL_INPUT, .DIGITAL_OUTPUT] none .PWM_OUTPUT bkOut
  refine ⟨(h1.1 rfl).1, (h2.2.1 (by decide) (by decide)).2,
    h3.2.2.1 (by decide) (by decide), ?_⟩
  have h4 := h2.2.2.2 (by decide)
  simpa [List.headI] using h4.2

/-- C10: a pin constructed with the source's default arguments supports
exactly `[DIGITAL_OUTPUT]`, starts in `DIGITAL_OUTPUT` mode, and setting
any other mode raises `NotSupportedByHardwareError`. -/
theorem gpio_default_supported_modes (identifier : Nat) (bk : GPIOBackend) :
    (GPIOPin.constructDefault identifier bk).result =
      .ok ⟨identifier, [.DIGITAL_OUTPUT]⟩ ∧
    (GPIOPin.constructDefault identifier bk).backend.pinMode identifier =
      .DIGITAL_OUTPUT ∧
    ∀ m : GPIOPinMode, m ≠ .DIGITAL_OUTPUT →
      ((GPIOPin.mk identifier [.DIGITAL_OUTPUT]).setMode m
        (GPIOPin.constructDefault identifier bk).backend).result =
        .error .notSupportedByHardware := by
  refine ⟨?_, ?_, ?_⟩
  · simp [GPIOPin.constructDefault, GPIOPin.construct, GPIOPin.setMode,
      List.headI]
  · simp [GPIOPin.constructDefault, GPIOPin.construct, GPIOPin.setMode,
      List.headI, GPIOBackend.setGpioPinMode]
  · intro m hm
    simp [GPIOPin.constructDefault, GPIOPin.construct, GPIOPin.setMode,
      List.headI, hm]

/-- Witness for C10 at pin 7 and the rejected mode `ANALOGUE_INPUT`. -/
theorem gpio_default_supported_modes_witness :
    ((GPIOPin.mk 7 [.DIGITAL_OUTPUT]).setMode .ANALOGUE_INPUT
      (GPIOPin.constructDefault 7 bkIn).backend).result =
      .error .notSupportedByHardware :=
  (gpio_default_supported_modes 7 bkIn).2.2 .ANALOGUE_INPUT (by decide)

/-- C6: in `DIGITAL_OUTPUT` mode, writing `digital_state = v` then reading
`digital_state` returns `v` through the backend's last-written storage,
for every live sensed value the backend may report. -/
theorem gpio_digital_output_round_trip (p : GPIOPin) (bk : GPIOBackend)
    (v : Bool) (h : bk.pinMode p.identifier = .DIGITAL_OUTPUT) :
    (p.setDigitalState v bk).result = .ok () ∧
    ∀ s : Nat → Bool,
      (p.getDigitalState
        { (p.setDigitalState v bk).backend with sensed := s }).result =
        .ok v := by
  constructor
  · simp [GPIOPin.setDigitalState, requirePinModes, anyModeCheck, h]
  · intro s
    simp [GPIOPin.setDigitalState, GPIOPin.getDigitalState, requirePinModes,
      anyModeCheck, digitalGetModes, h, GPIOBackend.writeGpioPinDigitalState]

/-- Witness for C6: pin 2 on a `DIGITAL_OUTPUT` backend, writing `true`
and reading it back while the live sensed value is `false`. -/
theorem gpio_digital_output_round_trip_witness :
    ((GPIOPin.mk 2 [.DIGITAL_OUTPUT]).getDigitalState
      { ((GPIOPin.mk 2 [.DIGITAL_OUTPUT]).setDigitalState true bkOut).backend
          with sensed := fun _ => false }).result = .ok true :=
  (gpio_digital_output_round_trip (GPIOPin.mk 2 [.DIGITAL_OUTPUT]) bkOut true
    (by decide)).2 (fun _ => false)

/-- C2: `digital_state` access is gated by the four digital modes — the
getter dispatches to the last-written value in `DIGITAL_OUTPUT` and to
the live read in the three input modes, the setter is legal only in
`DIGITAL_OUTPUT`, and any other mode raises `BadGPIOPinModeError` with
no backend pin-state read/write call and the backend unchanged. -/
theorem gpio_digital_state_gating (p : GPIOPin) (bk : GPIOBackend)
    (v : Bool) :
    (bk.pinMode p.identifier = .DIGITAL_OUTPUT →
      (p.getDigitalState bk).result = .ok (bk.written p.identifier) ∧
      BackendCall.getDigitalState p.identifier ∈
        (p.getDigitalState bk).calls ∧
      BackendCall.readDigitalState p.identifier ∉
        (p.getDigitalState bk).calls) ∧
    ((bk.pinMode p.identifier = .DIGITAL_INPUT ∨
      bk.pinMode p.identifier = .DIGITAL_INPUT_PULLUP ∨
      bk.pinMode p.identifier = .DIGITAL_INPUT_PULLDOWN) →
      (p.getDigitalState bk).result = .ok (bk.sensed p.identifier) ∧
      BackendCall.readDigitalState p.identifier ∈
        (p.getDigitalState bk).calls ∧
      BackendCall.getDigitalState p.identifier ∉
        (p.getDigitalState bk).calls) ∧
    (bk.pinMode p.identifier ∉ digitalGetModes →
      (p.getDigitalState bk).result = .error .badGPIOPinMode ∧
      (p.getDigitalState bk).calls.all
        (fun c => ! c.isPinStateAccess) = true ∧
      (p.getDigitalState bk).backend = bk) ∧
    (bk.pinMode p.identifier = .DIGITAL_OUTPUT →
      (p.setDigitalState v bk).result = .ok () ∧
      BackendCall.writeDigitalState p.identifier v ∈
        (p.setDigitalState v bk).calls) ∧
    (bk.pinMode p.identifier ≠ .DIGITAL_OUTPUT →
      (p.setDigitalState v bk).result = .error .badGPIOPinMode ∧
      (p.setDigitalState v bk).calls.all
        (fun c => ! c.isPinStateAccess) = true ∧
      (p.setDigitalState v bk).backend = bk) := by
  refine ⟨?_, ?_, ?_, ?_, ?_⟩
  · intro h
    simp [GPIOPin.getDigitalState, requirePinModes, anyModeCheck,
      digitalGetModes, h]
  · rintro (h | h | h) <;>
      simp [GPIOPin.getDigitalState, requirePinModes, anyModeCheck,
        digitalGetModes, h]
  · intro h
    cases hm : bk.pinMode p.identifier with
    | DIGITAL_INPUT => rw [hm] at h; exact absurd (by decide) h
    | DIGITAL_INPUT_PULLUP => rw [hm] at h; exact absurd (by decide) h
    | DIGITAL_INPUT_PULLDOWN => rw [hm] at h; exact absurd (by decide) h
    | DIGITAL_OUTPUT => rw [hm] at h; exact absurd (by decide) h
    | ANALOGUE_INPUT =>
        simp [GPIOPin.getDigitalState, requirePinModes, anyModeCheck,
          digitalGetModes, hm, BackendCall.isPinStateAccess]
    | ANALOGUE_OUTPUT =>
        simp [GPIOPin.getDigitalState, requirePinModes, anyModeCheck,
          digitalGetModes, hm, BackendCall.isPinStateAccess]
    | PWM_OUTPUT =>
        simp [GPIOPin.getDigitalState, requirePinModes, anyModeCheck,
          digitalGetModes, hm, BackendCall.isPinStateAccess]
  · intro h
    simp [GPIOPin.setDigitalState, requirePinModes, anyModeCheck, h]
  · intro h
    simp [GPIOPin.setDigitalState, requirePinModes, anyModeCheck, h,
      BackendCall.isPinStateAccess]

/-- Witness for C2: the getter on an output pin returns the last written
value, on an input pin the live value, and on an analogue pin both
accessor directions raise `BadGPIOPinModeError`. -/
theorem gpio_digital_state_gating_witness :
    ((GPIOPin.mk 1 [.DIGITAL_OUTPUT]).getDigitalState bkOut).result =
      .ok false ∧
    ((GPIOPin.mk 1 [.DIGITAL_INPUT]).getDigitalState bkIn).result =
      .ok true ∧
    ((GPIOPin.mk 1 [.ANALOGUE_INPUT]).getDigitalState bkAna).result =
      .error .badGPIOPinMode ∧
    ((GPIOPin.mk 1 [.ANALOGUE_INPUT]).setDigitalState true bkAna).result =
      .error .badGPIOPinMode := by
  have h1 := gpio_digital_state_gating (GPIOPin.mk 1 [.DIGITAL_OUTPUT])
    bkOut true
  have h2 := gpio_digital_state_gating (GPIOPin.mk 1 [.DIGITAL_INPUT])
    bkIn true
  have h3 := gpio_digital_state_gating (GPIOPin.mk 1 [.ANALOGUE_INPUT])
    bkAna true
  exact ⟨(h1.1 rfl).1, (h2.2.1 (Or.inl rfl)).1, (h3.2.2.1 (by decide)).1,
    (h3.2.2.2.2 (by decide)).1⟩

/-- C3 counterexample: with pin 0 in `DIGITAL_OUTPUT` mode, writing the
out-of-range analogue value 2 raises `BadGPIOPinModeError`, not the
claimed `ValueError`, because the mode gate runs before the range
check. -/
theorem gpio_analogue_write_not_valueerror_out_of_mode :
    (2 : ℚ) > 1 ∧
    ((GPIOPin.mk 0 [.DIGITAL_OUTPUT]).setAnalogueValue 2 bkOut).result =
      .error .badGPIOPinMode ∧
    ((GPIOPin.mk 0 [.DIGITAL_OUTPUT]).setAnalogueValue 2 bkOut).result ≠
      .error .valueError := by
  refine ⟨by norm_num, rfl, ?_⟩
  intro h
  simp [GPIOPin.setAnalogueValue, requirePinModes, anyModeCheck, bkOut] at h

/-- C3 as amended: for a pin in `ANALOGUE_OUTPUT` or `PWM_OUTPUT` mode a
value in [0,1] dispatches to the DAC write or the PWM write
respectively, and an out-of-range value raises `ValueError`; in any
other mode `BadGPIOPinModeError` is raised before the range check; in
every failure case no backend write call is made and the backend is
unchanged. -/
theorem gpio_analogue_write_dispatch (p : GPIOPin) (bk : GPIOBackend)
    (v : ℚ) :
    (bk.pinMode p.identifier = .ANALOGUE_OUTPUT →
      (0 ≤ v → v ≤ 1 →
        (p.setAnalogueValue v bk).result = .ok () ∧
        BackendCall.writeDacValue p.identifier v ∈
          (p.setAnalogueValue v bk).calls ∧
        BackendCall.writePwmValue p.identifier v ∉
          (p.setAnalogueValue v bk).calls) ∧
      (v < 0 ∨ 1 < v →
        (p.setAnalogueValue v bk).result = .error .valueError ∧
        (p.setAnalogueValue v bk).calls.all (fun c => ! c.isWrite) = true ∧
        (p.setAnalogueValue v bk).backend = bk)) ∧
    (bk.pinMode p.identifier = .PWM_OUTPUT →
      (0 ≤ v → v ≤ 1 →
        (p.setAnalogueValue v bk).result = .ok () ∧
        BackendCall.writePwmValue p.identifier v ∈
          (p.setAnalogueValue v bk).calls ∧
        BackendCall.writeDacValue p.identifier v ∉
          (p.setAnalogueValue v bk).calls) ∧
      (v < 0 ∨ 1 < v →
        (p.setAnalogueValue v bk).result = .error .valueError ∧
        (p.setAnalogueValue v bk).calls.all (fun c => ! c.isWrite) = true ∧
        (p.setAnalogueValue v bk).backend = bk)) ∧
    (bk.pinMode p.identifier ≠ .ANALOGUE_OUTPUT →
      bk.pinMode p.identifier ≠ .PWM_OUTPUT →
      (p.setAnalogueValue v bk).result = .error .badGPIOPinMode ∧
      (p.setAnalogueValue v bk).calls.all (fun c => ! c.isWrite) = true ∧
      (p.setAnalogueValue v bk).backend = bk) := by
  refine ⟨?_, ?_, ?_⟩
  · intro h
    constructor
    · intro h0 h1
      have hv : ¬ (v < 0 ∨ v > 1) := by
        rintro (hc | hc)
        · exact absurd hc (not_lt.mpr h0)
        · exact absurd hc (not_lt.mpr h1)
      simp [GPIOPin.setAnalogueValue, requirePinModes, anyModeCheck, h, hv]
    · intro hv
      simp [GPIOPin.setAnalogueValue, requirePinModes, anyModeCheck, h, hv,
        BackendCall.isWrite]
  · intro h
    constructor
    · intro h0 h1
      have hv : ¬ (v < 0 ∨ v > 1) := by
        rintro (hc | hc)
        · exact absurd hc (not_lt.mpr h0)
        · exact absurd hc (not_lt.mpr h1)
      simp [GPIOPin.setAnalogueValue, requirePinModes, anyModeCheck, h, hv]
    · intro hv
      simp [GPIOPin.setAnalogueValue, requirePinModes, anyModeCheck, h, hv,
        BackendCall.isWrite]
  · intro ha hp'
    simp [GPIOPin.setAnalogueValue, requirePinModes, anyModeCheck, ha, hp',
      BackendCall.isWrite]

/-- Witness for C3 (amended): a PWM pin accepts 1/2 as a PWM write and
rejects 2 with `ValueError`; a digital-output pin rejects the write with
`BadGPIOPinModeError`. -/
theorem gpio_analogue_write_dispatch_witness :
    ((GPIOPin.mk 4 [.PWM_OUTPUT]).setAnalogueValue (1/2) bkPwm).result =
      .ok () ∧
    ((GPIOPin.mk 4 [.PWM_OUTPUT]).setAnalogueValue 2 bkPwm).result =
      .error .valueError ∧
    ((GPIOPin.mk 4 [.DIGITAL_OUTPUT]).setAnalogueValue 2 bkOut).result =
      .error .badGPIOPinMode := by
  have h1 := gpio_analogue_write_dispatch (GPIOPin.mk 4 [.PWM_OUTPUT])
    bkPwm (1/2)
  have h2 := gpio_analogue_write_dispatch (GPIOPin.mk 4 [.PWM_OUTPUT])
    bkPwm 2
  have h3 := gpio_analogue_write_dispatch (GPIOPin.mk 4 [.DIGITAL_OUTPUT])
    bkOut 2
  exact ⟨((h1.2.1 rfl).1 (by norm_num) (by norm_num)).1,
    ((h2.2.1 rfl).2 (Or.inr (by norm_num))).1,
    (h3.2.2 (by decide) (by decide)).1⟩

end Theorems

/-- The `digital_state` getter never mutates backend state. -/
lemma getDigitalState_backend (p : GPIOPin) (bk : GPIOBackend) :
    (p.getDigitalState bk).backend = bk := by
  unfold GPIOPin.getDigitalState
  split <;> first | rfl | split <;> rfl

/-- The `analogue_value` getter never mutates backend state. -/
lemma getAnalogueValue_backend (p : GPIOPin) (bk : GPIOBackend) :
    (p.getAnalogueValue bk).backend = bk := by
  unfold GPIOPin.getAnalogueValue
  split <;> rfl

/-- The `digital_state` setter never changes the stored pin mode. -/
lemma setDigitalState_pinMode (p : GPIOPin) (v : Bool) (bk : GPIOBackend) :
    (p.setDigitalState v bk).backend.pinMode = bk.pinMode := by
  unfold GPIOPin.setDigitalState
  split <;> rfl

/-- The `analogue_value` setter never changes the stored pin mode. -/
lemma setAnalogueValue_pinMode (p : GPIOPin) (v : ℚ) (bk : GPIOBackend) :
    (p.setAnalogueValue v bk).backend.pinMode = bk.pinMode := by
  unfold GPIOPin.setAnalogueValue
  split
  · rfl
  · split
    · rfl
    · split <;> rfl

/-- One pin operation preserves "the backend-stored mode is supported". -/
lemma pinOp_apply_mode_mem (p : GPIOPin) (bk : GPIOBackend) (op : PinOp)
    (h : bk.pinMode p.identifier ∈ p.supported_modes) :
    (PinOp.apply p bk op).pinMode p.identifier ∈ p.supported_modes := by
  cases op with
  | setMode m =>
      by_cases hm : m ∈ p.supported_modes
      · simp [PinOp.apply, GPIOPin.setMode, hm, GPIOBackend.setGpioPinMode]
      · simpa [PinOp.apply, GPIOPin.setMode, hm] using h
  | getMode => simpa [PinOp.apply, GPIOPin.getMode] using h
  | getDigital =>
      rw [PinOp.apply, getDigitalState_backend]; exact h
  | setDigital v =>
      rw [PinOp.apply, setDigitalState_pinMode]; exact h
  | getAnalogue =>
      rw [PinOp.apply, getAnalogueValue_backend]; exact h
  | setAnalogue v =>
      rw [PinOp.apply, setAnalogueValue_pinMode]; exact h

/-- Running any operation sequence preserves the supported-mode
invariant. -/
lemma runOps_mode_mem (p : GPIOPin) (bk : GPIOBackend) (ops : List PinOp)
    (h : bk.pinMode p.identifier ∈ p.supported_modes) :
    (runOps p bk ops).pinMode p.identifier ∈ p.supported_modes := by
  induction ops generalizing bk with
  | nil => simpa [runOps] using h
  | cons op rest ih =>
      rw [runOps, List.foldl_cons]
      exact ih _ (pinOp_apply_mode_mem p bk op h)

/-- A successful construction yields the pin with the given fields and a
backend whose stored mode for it is supported. -/
lemma construct_ok_inv (identifier : Nat) (S : List GPIOPinMode)
    (im : Option GPIOPinMode) (bk0 : GPIOBackend) (p : GPIOPin)
    (h : (GPIOPin.construct identifier S im bk0).result = .ok p) :
    p = ⟨identifier, S⟩ ∧
    (GPIOPin.construct identifier S im bk0).backend.pinMode identifier
      ∈ S := by
  unfold GPIOPin.construct at h ⊢
  by_cases hl : S.length < 1
  · simp [hl] at h
  · cases im with
    | none =>
        by_cases hmem : S.headI ∈ S
        · simp [hl, GPIOPin.setMode, hmem, GPIOBackend.setGpioPinMode]
            at h ⊢
          exact h.symm
        · simp [hl, GPIOPin.setMode, hmem] at h
    | some x =>
        by_cases hmem : x ∈ S
        · simp [hl, GPIOPin.setMode, hmem, GPIOBackend.setGpioPinMode]
            at h ⊢
          exact h.symm
        · simp [hl, GPIOPin.setMode, hmem] at h

section Theorems2

/-- C5: a successfully constructed pin keeps the backend-reported mode
inside its supported-modes list in every state reachable by any sequence
of pin operations. -/
theorem gpio_mode_invariant (identifier : Nat) (S : List GPIOPinMode)
    (im : Option GPIOPinMode) (bk0 : GPIOBackend) (p : GPIOPin)
    (h : (GPIOPin.construct identifier S im bk0).result = .ok p)
    (ops : List PinOp) :
    (runOps p (GPIOPin.construct identifier S im bk0).backend ops).pinMode
      p.identifier ∈ S := by
  obtain ⟨hp, hinit⟩ := construct_ok_inv identifier S im bk0 p h
  subst hp
  exact runOps_mode_mem _ _ ops hinit

/-- Witness for C5: a pin supporting digital output and analogue input
run through a mode change, a digital write and a rejected mode change
still reports a supported mode. -/
theorem gpio_mode_invariant_witness :
    (runOps ⟨0, [.DIGITAL_OUTPUT, .ANALOGUE_INPUT]⟩
      (GPIOPin.construct 0 [.DIGITAL_OUTPUT, .ANALOGUE_INPUT]
        none bkIn).backend
      [.setMode .ANALOGUE_INPUT, .setDigital true,
       .setMode .PWM_OUTPUT]).pinMode 0
      ∈ [GPIOPinMode.DIGITAL_OUTPUT, GPIOPinMode.ANALOGUE_INPUT] :=
  gpio_mode_invariant 0 [.DIGITAL_OUTPUT, .ANALOGUE_INPUT] none bkIn
    ⟨0, [.DIGITAL_OUTPUT, .ANALOGUE_INPUT]⟩ rfl
    [.setMode .ANALOGUE_INPUT, .setDigital true, .setMode .PWM_OUTPUT]

end Theorems2

/-- Folding `setEnabled c` over a list of outputs sets exactly the listed
identifiers to `c` and leaves every other identifier untouched. -/
lemma foldl_setEnabled (c : Bool) (l : List PowerOutput)
    (bk : PowerBackend) (i : Nat) :
    (l.foldl (fun b o => o.setEnabled c b) bk).enabled i =
      if i ∈ l.map PowerOutput.identifier then c else bk.enabled i := by
  induction l generalizing bk with
  | nil => simp
  | cons o rest ih =>
      rw [List.foldl_cons, ih]
      by_cases hi : i ∈ rest.map PowerOutput.identifier
      · simp [hi]
      · by_cases h0 : i = o.identifier
        · simp [hi, h0, PowerOutput.setEnabled,
            PowerBackend.setPowerOutputEnabled]
        · simp [hi, h0, PowerOutput.setEnabled,
            PowerBackend.setPowerOutputEnabled]

/-- Characterisation of `power_off` on the enabled map. -/
lemma powerOff_enabled (g : PowerOutputGroup) (bk : PowerBackend)
    (i : Nat) :
    (g.powerOff bk).enabled i =
      if i ∈ g.outputs.map PowerOutput.identifier then false
      else bk.enabled i :=
  foldl_setEnabled false g.outputs bk i

/-- Characterisation of `power_on` on the enabled map. -/
lemma powerOn_enabled (g : PowerOutputGroup) (bk : PowerBackend)
    (i : Nat) :
    (g.powerOn bk).enabled i =
      if i ∈ g.outputs.map PowerOutput.identifier then true
      else bk.enabled i :=
  foldl_setEnabled true g.outputs bk i

section Theorems3

/-- C7: `make_safe` drives all six power-board outputs to disabled
whatever their prior state, and a second `make_safe` leaves the
backend's enabled state unchanged. -/
theorem power_board_make_safe (bk : PowerBackend) :
    (∀ pos : PowerOutputPosition,
      (PowerBoard.makeSafe bk).enabled pos.value = false) ∧
    (∀ i : Nat,
      (PowerBoard.makeSafe (PowerBoard.makeSafe bk)).enabled i =
        (PowerBoard.makeSafe bk).enabled i) := by
  constructor
  · intro pos
    rw [PowerBoard.makeSafe, powerOff_enabled]
    cases pos <;> rfl
  · intro i
    simp only [PowerBoard.makeSafe]
    rw [powerOff_enabled, powerOff_enabled]
    by_cases hi : i ∈ PowerBoard.outputGroup.outputs.map
        PowerOutput.identifier
    · simp [hi]
    · simp [hi]

/-- C8: `power_off` disables and `power_on` enables every member of a
group whatever their prior states, and identifiers outside the group
keep their previous enabled state. -/
theorem power_output_group_batch (g : PowerOutputGroup)
    (bk : PowerBackend) :
    (∀ o ∈ g.outputs, (g.powerOff bk).enabled o.identifier = false) ∧
    (∀ o ∈ g.outputs, (g.powerOn bk).enabled o.identifier = true) ∧
    (∀ i : Nat, i ∉ g.outputs.map PowerOutput.identifier →
      (g.powerOff bk).enabled i = bk.enabled i ∧
      (g.powerOn bk).enabled i = bk.enabled i) := by
  refine ⟨?_, ?_, ?_⟩
  · intro o ho
    rw [powerOff_enabled]
    simp [List.mem_map_of_mem PowerOutput.identifier ho]
  · intro o ho
    rw [powerOn_enabled]
    simp [List.mem_map_of_mem PowerOutput.identifier ho]
  · intro i hi
    rw [powerOff_enabled, powerOn_enabled]
    simp [hi]

end Theorems3

/-- A concrete power backend used in witnesses: every output enabled. -/
def bkPow : PowerBackend := ⟨fun _ => true, fun _ => 0⟩

section Theorems4

/-- Witness for C8 on the group of outputs 0 and 3, all initially
enabled: both members are driven, output 5 is untouched. -/
theorem power_output_group_batch_witness :
    ((PowerOutputGroup.mk [⟨0⟩, ⟨3⟩]).powerOff bkPow).enabled 3 = false ∧
    ((PowerOutputGroup.mk [⟨0⟩, ⟨3⟩]).powerOn bkPow).enabled 0 = true ∧
    ((PowerOutputGroup.mk [⟨0⟩, ⟨3⟩]).powerOff bkPow).enabled 5 =
      bkPow.enabled 5 := by
  have h := power_output_group_batch (PowerOutputGroup.mk [⟨0⟩, ⟨3⟩]) bkPow
  exact ⟨h.1 ⟨3⟩ (by decide), h.2.1 ⟨0⟩ (by decide),
    (h.2.2 5 (by decide)).1⟩

/-- C9: the `MotorOutput` class body defines `__int__` and no `__init__`,
so Python construction with `(identifier, board, backend)` does not bind
the three references (unlike `PowerOutput`, whose body does define
`__init__`). -/
theorem motor_output_construction_does_not_bind :
    pythonConstructionBinds MotorOutput.classMethodNames = false ∧
    pythonConstructionBinds PowerOutput.classMethodNames = true := by
  constructor <;> rfl

end Theorems4

end J5
